import Mathlib

/-!
Verification development for the NARA → Arke ingest pipeline
(scripts/nara_import): a shallow embedding of the hashing utilities,
PI utilities, JSON catalog-record builders, API client, importer and
checkpoint scripts, with theorems checking the specification's claims.

Machine integers: Python ints are unbounded, so Nat/Int are exact models.
Byte strings are modelled as List Nat (each element a byte value).
Python dicts are modelled as association lists in insertion order,
with lookup by key and in-place update on re-assignment.
-/

/-! ## SHA-256 (models hashlib.sha256 from nara_hash_utils.py's use) -/

namespace NaraHash

/-- Truncate to 32 bits. -/
def w32 (x : Nat) : Nat := x % 4294967296

/-- Rotate a 32-bit word right by n positions. -/
def rotr (x n : Nat) : Nat := w32 ((x >>> n) ||| (x <<< (32 - n)))

/-- Logical right shift. -/
def shr (x n : Nat) : Nat := x >>> n

def bigSigma0 (x : Nat) : Nat := rotr x 2 ^^^ rotr x 13 ^^^ rotr x 22
def bigSigma1 (x : Nat) : Nat := rotr x 6 ^^^ rotr x 11 ^^^ rotr x 25
def smallSigma0 (x : Nat) : Nat := rotr x 7 ^^^ rotr x 18 ^^^ shr x 3
def smallSigma1 (x : Nat) : Nat := rotr x 17 ^^^ rotr x 19 ^^^ shr x 10

def ch (x y z : Nat) : Nat := (x &&& y) ^^^ ((x ^^^ 4294967295) &&& z)
def maj (x y z : Nat) : Nat := (x &&& y) ^^^ (x &&& z) ^^^ (y &&& z)

/-- The 64 SHA-256 round constants (written in decimal). -/
def K : List Nat :=
  [1116352408, 1899447441, 3049323471, 3921009573, 961987163, 1508970993,
   2453635748, 2870763221, 3624381080, 310598401, 607225278, 1426881987,
   1925078388, 2162078206, 2614888103, 3248222580, 3835390401, 4022224774,
   264347078, 604807628, 770255983, 1249150122, 1555081692, 1996064986,
   2554220882, 2821834349, 2952996808, 3210313671, 3336571891, 3584528711,
   113926993, 338241895, 666307205, 773529912, 1294757372, 1396182291,
   1695183700, 1986661051, 2177026350, 2456956037, 2730485921, 2820302411,
   3259730800, 3345764771, 3516065817, 3600352804, 4094571909, 275423344,
   430227734, 506948616, 659060556, 883997877, 958139571, 1322822218,
   1537002063, 1747873779, 1955562222, 2024104815, 2227730452, 2361852424,
   2428436474, 2756734187, 3204031479, 3329325298]

/-- The initial SHA-256 hash state (written in decimal). -/
def H0 : List Nat :=
  [1779033703, 3144134277, 1013904242, 2773480762,
   1359893119, 2600822924, 528734635, 1541459225]

/-- Big-endian byte decomposition (n bytes). -/
def toBytesBE : Nat → Nat → List Nat
  | 0, _ => []
  | n + 1, x => toBytesBE n (x >>> 8) ++ [x &&& 255]

/-- SHA-256 message padding: 0x80, zeros to 56 mod 64, 8-byte big-endian bit length. -/
def padMessage (msg : List Nat) : List Nat :=
  msg ++ [128] ++ List.replicate ((119 - msg.length % 64) % 64) 0 ++ toBytesBE 8 (8 * msg.length)

/-- Group bytes into big-endian 32-bit words. -/
def bytesToWords : List Nat → List Nat
  | a :: b :: c :: d :: rest => ((a <<< 24) ||| (b <<< 16) ||| (c <<< 8) ||| d) :: bytesToWords rest
  | _ => []

/-- One message-schedule extension step. -/
def scheduleStep (w : List Nat) : List Nat :=
  let i := w.length
  w ++ [w32 (smallSigma1 (w.getD (i - 2) 0) + w.getD (i - 7) 0 +
             smallSigma0 (w.getD (i - 15) 0) + w.getD (i - 16) 0)]

def buildSchedule : Nat → List Nat → List Nat
  | 0, w => w
  | n + 1, w => buildSchedule n (scheduleStep w)

/-- Full 64-word message schedule from a 16-word block. -/
def schedule (block : List Nat) : List Nat := buildSchedule 48 block

/-- One SHA-256 compression round on the 8-word working state. -/
def round (st : List Nat) (k w : Nat) : List Nat :=
  match st with
  | [a, b, c, d, e, f, g, h] =>
    let t1 := w32 (h + bigSigma1 e + ch e f g + k + w)
    let t2 := w32 (bigSigma0 a + maj a b c)
    [w32 (t1 + t2), a, b, c, w32 (d + t1), e, f, g]
  | _ => st

def rounds : List Nat → List Nat → List Nat → List Nat
  | [], _, st => st
  | _ :: _, [], st => st
  | k :: ks, w :: ws, st => rounds ks ws (round st k w)

/-- Compress one 16-word block into the hash state. -/
def compress (st : List Nat) (block : List Nat) : List Nat :=
  let st' := rounds K (schedule block) st
  List.zipWith (fun x y => w32 (x + y)) st st'

/-- Process 16-word blocks (fuel-driven; fuel is always sufficient at call site). -/
def processBlocks : Nat → List Nat → List Nat → List Nat
  | 0, _, st => st
  | fuel + 1, ws, st =>
    match ws with
    | [] => st
    | _ :: _ => processBlocks fuel (ws.drop 16) (compress st (ws.take 16))

/-- Lower-case hexadecimal digit for a nibble. -/
def hexDigitChar (n : Nat) : Char :=
  if n < 10 then Char.ofNat (48 + n) else Char.ofNat (87 + n)

/-- Lower-case hex rendering of a 32-bit word (8 digits). -/
def toHex8 (x : Nat) : List Char :=
  (List.range 8).map (fun i => hexDigitChar ((x >>> (4 * (7 - i))) &&& 15))

/-- SHA-256 digest of a byte sequence, as a lower-case hex string
(models hashlib.sha256(data).hexdigest()). -/
def sha256hex (msg : List Nat) : String :=
  let ws := bytesToWords (padMessage msg)
  String.mk (((processBlocks ws.length ws H0).map toHex8).flatten)

/-- Byte values of an ASCII string literal. -/
def strBytes (s : String) : List Nat := s.toList.map Char.toNat

/-- The sixteen characters a lower-case hex digest may contain. -/
def hexLowerChars : List Char := "0123456789abcdef".toList

end NaraHash

/-! ## nara_hash_utils.py: download_and_hash_s3 and create_content_hash_object

The remote byte stream delivered by requests' iter_content is modelled as the
list of its chunks (each a byte list); the hasher update/total accumulation
mirror the source loop, skipping falsy (empty) chunks. -/

namespace NaraHashUtils

open NaraHash

/-- One loop iteration of download_and_hash_s3: skip empty chunks, feed the
hasher (modelled as accumulating the bytes) and add to total_bytes. -/
def hashStep (acc : List Nat × Nat) (chunk : List Nat) : List Nat × Nat :=
  if chunk.isEmpty then acc else (acc.1 ++ chunk, acc.2 + chunk.length)

/-- download_and_hash_s3: stream the chunks, return (sha256 hex digest, total bytes). -/
def download_and_hash_s3 (chunks : List (List Nat)) : String × Nat :=
  let r := chunks.foldl hashStep ([], 0)
  (sha256hex r.1, r.2)

end NaraHashUtils

/-! ## JSON values (payloads of json.dumps in arke_api_client.py / nara_schema.py)

Objects keep their field lists in python-dict insertion order; json.dumps with
sort_keys=True is modelled by recursively sorting every object by key before
dumping. Keys are compared as python compares str: lexicographically by code
point. -/

/-- Bool-valued lexicographic string comparison by code point
(python str <= on dict keys). -/
def strLeB : List Char → List Char → Bool
  | [], _ => true
  | _ :: _, [] => false
  | a :: as, b :: bs =>
    if a.toNat < b.toNat then true
    else if b.toNat < a.toNat then false
    else strLeB as bs

inductive JValue where
  | jnull : JValue
  | jbool : Bool → JValue
  | jnum : Int → JValue
  | jstr : String → JValue
  | jarr : List JValue → JValue
  | jobj : List (String × JValue) → JValue

namespace JValue

/-- Key order used by sort_keys=True. -/
def keyLE (p q : String × JValue) : Prop := strLeB p.1.data q.1.data = true

instance : DecidableRel keyLE := fun p q =>
  inferInstanceAs (Decidable (strLeB p.1.data q.1.data = true))

/-- sorted(fields, key=first component), as performed by json.dumps sort_keys. -/
def sortPairs (fs : List (String × JValue)) : List (String × JValue) :=
  List.insertionSort keyLE fs

mutual

/-- Recursively sort every object's fields by key. -/
def sortJ : JValue → JValue
  | .jobj fs => .jobj (sortPairs (sortJFields fs))
  | .jarr xs => .jarr (sortJList xs)
  | v => v

def sortJList : List JValue → List JValue
  | [] => []
  | x :: xs => sortJ x :: sortJList xs

def sortJFields : List (String × JValue) → List (String × JValue)
  | [] => []
  | (k, v) :: fs => (k, sortJ v) :: sortJFields fs

end

def quoteStr (s : String) : String := "\"" ++ s ++ "\""

mutual

/-- Serialize, fields in list order (python json.dumps default separators). -/
def dumpJ : JValue → String
  | .jnull => "null"
  | .jbool b => if b then "true" else "false"
  | .jnum n => toString n
  | .jstr s => quoteStr s
  | .jarr xs => "[" ++ String.intercalate ", " (dumpJList xs) ++ "]"
  | .jobj fs => "\x7b" ++ String.intercalate ", " (dumpJFields fs) ++ "\x7d"

def dumpJList : List JValue → List String
  | [] => []
  | x :: xs => dumpJ x :: dumpJList xs

def dumpJFields : List (String × JValue) → List String
  | [] => []
  | (k, v) :: fs => (quoteStr k ++ ": " ++ dumpJ v) :: dumpJFields fs

end

/-- json.dumps(data, sort_keys=True). -/
def dumps (v : JValue) : String := dumpJ (sortJ v)

def jGetFields : List (String × JValue) → String → Option JValue
  | [], _ => none
  | (k', x) :: rest, k => if k' = k then some x else jGetFields rest k

/-- Lookup of a key in a JSON object (python record.get(k) / record[k]). -/
def jGet (v : JValue) (k : String) : Option JValue :=
  match v with
  | .jobj fs => jGetFields fs k
  | _ => none

/-- Key membership in a JSON object (python "k in record"). -/
def hasKey (v : JValue) (k : String) : Bool := (jGet v k).isSome

end JValue

/-! ## Python dict operations

Association lists in insertion order; assignment replaces in place,
lookup scans from the front (keys are unique in every dict the source builds,
so first-match lookup is exact). -/

def dictGet {α : Type} (d : List (String × α)) (k : String) : Option α :=
  match d with
  | [] => none
  | (k', v) :: rest => if k' = k then some v else dictGet rest k

def dictSet {α : Type} (d : List (String × α)) (k : String) (v : α) : List (String × α) :=
  match d with
  | [] => [(k, v)]
  | (k', v') :: rest => if k' = k then (k, v) :: rest else (k', v') :: dictSet rest k v

def dictUpdate {α : Type} (d : List (String × α)) (k : String) (f : α → α) :
    List (String × α) :=
  match d with
  | [] => []
  | (k', v) :: rest => if k' = k then (k', f v) :: rest else (k', v) :: dictUpdate rest k f

/-! ## lib/nara_pi.py: PI naming utilities

Python strings are modelled as lists of characters so that str.split("-") and
"-".join can be reasoned about directly. -/

namespace NaraPI

/-- str.split(sep) for a one-character separator (empty pieces kept). -/
def splitOnChar (sep : Char) : List Char → List (List Char)
  | [] => [[]]
  | c :: rest =>
    let r := splitOnChar sep rest
    if c = sep then [] :: r
    else
      match r with
      | [] => [[c]]
      | h :: t => (c :: h) :: t

/-- Result dictionary of parse_pi. -/
structure ParsedPI where
  pfx : List Char
  collection_id : List Char
  entity_type : List Char
  nara_id : List Char
  ulid : List Char
  deriving DecidableEq, Repr

def NARA_STR : List Char := ['N', 'A', 'R', 'A']

def VALID_TYPES : List (List Char) :=
  [['C', 'O', 'L'], ['S', 'E', 'R'], ['F', 'I', 'L', 'E'], ['O', 'B', 'J']]

/-- parse_pi: split on "-", require at least 6 parts, check the NARA marker and
the entity type, rebuild the (possibly hyphenated) collection id from the
middle parts; None models a raised ValueError. -/
def parse_pi (pi : List Char) : Option ParsedPI :=
  let parts := splitOnChar '-' pi
  if parts.length < 6 then none
  else
    let pfx := parts.getD 0 []
    if pfx ≠ NARA_STR then none
    else
      let entity_type := parts.getD (parts.length - 3) []
      let nara_id := parts.getD (parts.length - 2) []
      let ulid := parts.getD (parts.length - 1) []
      let collection_id := List.intercalate ['-'] ((parts.drop 1).take (parts.length - 4))
      if entity_type ∈ VALID_TYPES then
        some ⟨pfx, collection_id, entity_type, nara_id, ulid⟩
      else none

/-- generate_semantic_id: "NARA-{collection_id}-{entity_type}-{nara_id}". -/
def generate_semantic_id (collection_id : List Char) (entity_type : List Char)
    (nara_id : List Char) : List Char :=
  NARA_STR ++ '-' :: collection_id ++ '-' :: entity_type ++ '-' :: nara_id

/-- is_valid_pi: parse_pi succeeds. -/
def is_valid_pi (pi : List Char) : Bool := (parse_pi pi).isSome

end NaraPI

/-! ## nara_schema.py: catalog-record builders

Each builder returns the python dict as a JValue object in insertion order.
The wall-clock timestamp datetime.utcnow().isoformat() is an input (now). -/

namespace NaraSchema

/-- Python truthiness of a JSON value (if value: ...). -/
def jvTruthy : JValue → Bool
  | .jnull => false
  | .jbool b => b
  | .jnum n => n != 0
  | .jstr s => s != ""
  | .jarr xs => !xs.isEmpty
  | .jobj fs => !fs.isEmpty

/-- Optional string field added only when truthy (if v: record[key] = v). -/
def optStrField (key : String) (v : Option String) : List (String × JValue) :=
  match v with
  | some s => if s != "" then [(key, .jstr s)] else []
  | none => []

/-- Optional JSON field added only when truthy. -/
def optJField (key : String) (v : Option JValue) : List (String × JValue) :=
  match v with
  | some j => if jvTruthy j then [(key, j)] else []
  | none => []

/-- Optional list field added only when non-empty. -/
def optListField (key : String) (v : Option (List JValue)) : List (String × JValue) :=
  match v with
  | some xs => if !xs.isEmpty then [(key, .jarr xs)] else []
  | none => []

/-- Optional string-list field added only when non-empty. -/
def optStrListField (key : String) (v : Option (List String)) : List (String × JValue) :=
  match v with
  | some xs => if !xs.isEmpty then [(key, .jarr (xs.map JValue.jstr))] else []
  | none => []

/-- A python Dict[str, str] as a JSON object. -/
def jStrObj (d : List (String × String)) : JValue :=
  .jobj (d.map (fun p => (p.1, JValue.jstr p.2)))

def create_institution_catalog_record (name : String)
    (description url location : Option String) (now : String) : JValue :=
  .jobj ([("schema", .jstr "nara-institution@v1"),
          ("name", .jstr name),
          ("import_timestamp", .jstr (now ++ "Z"))]
    ++ optStrField "description" description
    ++ optStrField "url" url
    ++ optStrField "location" location)

def create_collection_catalog_record (nara_naid : Nat) (collection_identifier : String)
    (title : String) (date_range : List (String × String))
    (stats : Option JValue) (full_metadata : Option JValue) (now : String) : JValue :=
  .jobj ([("schema", .jstr "nara-collection@v1"),
          ("nara_naId", .jnum nara_naid),
          ("collection_identifier", .jstr collection_identifier),
          ("title", .jstr title),
          ("date_range", jStrObj date_range),
          ("import_timestamp", .jstr (now ++ "Z"))]
    ++ optJField "stats" stats
    ++ optJField "nara_full_metadata" full_metadata)

def create_series_catalog_record (nara_naid : Nat) (parent_naid : Nat) (title : String)
    (date_range : List (String × String)) (creators : Option (List JValue))
    (full_metadata : Option JValue) (now : String) : JValue :=
  .jobj ([("schema", .jstr "nara-series@v1"),
          ("nara_naId", .jnum nara_naid),
          ("parent_naId", .jnum parent_naid),
          ("title", .jstr title),
          ("date_range", jStrObj date_range),
          ("import_timestamp", .jstr (now ++ "Z"))]
    ++ optListField "creators" creators
    ++ optJField "nara_full_metadata" full_metadata)

def create_fileunit_catalog_record (nara_naid parent_naid collection_naid : Nat)
    (title : String) (record_types : List String) (digital_object_count : Nat)
    (access_restriction : Option JValue) (foia_tracking : Option String)
    (physical_location : Option JValue) (other_titles : Option (List String))
    (full_metadata : Option JValue) (now : String) : JValue :=
  .jobj ([("schema", .jstr "nara-fileunit@v1"),
          ("nara_naId", .jnum nara_naid),
          ("parent_naId", .jnum parent_naid),
          ("collection_naId", .jnum collection_naid),
          ("title", .jstr title),
          ("level", .jstr "fileUnit"),
          ("record_types", .jarr (record_types.map JValue.jstr)),
          ("digital_object_count", .jnum digital_object_count),
          ("import_timestamp", .jstr (now ++ "Z"))]
    ++ optJField "access_restriction" access_restriction
    ++ optStrField "foia_tracking" foia_tracking
    ++ optJField "physical_location" physical_location
    ++ optStrListField "other_titles" other_titles
    ++ optJField "nara_full_metadata" full_metadata)

def create_digitalobject_catalog_record (nara_object_id : String) (parent_naid : Nat)
    (filename object_type s3_url : String) (content_hash : JValue) (file_size : Nat)
    (page_number : Option Nat) (extracted_text : Option String)
    (full_metadata : Option JValue) (now : String) : JValue :=
  .jobj ([("schema", .jstr "nara-digitalobject@v1"),
          ("nara_objectId", .jstr nara_object_id),
          ("parent_naId", .jnum parent_naid),
          ("filename", .jstr filename),
          ("object_type", .jstr object_type),
          ("file_size", .jnum file_size),
          ("s3_url", .jstr s3_url),
          ("content_hash", content_hash),
          ("import_timestamp", .jstr (now ++ "Z"))]
    ++ (match page_number with
        | some n => [("page_number", JValue.jnum n)]
        | none => [])
    ++ optStrField "extracted_text" extracted_text
    ++ optJField "nara_full_metadata" full_metadata)

end NaraSchema

namespace NaraHashUtils

/-- create_content_hash_object: the content_hash sub-dict of a digital object. -/
def create_content_hash_object (digest_hex : String) : JValue :=
  .jobj [("algorithm", .jstr "sha256"), ("digest_hex", .jstr digest_hex)]

end NaraHashUtils

/-! ## Entity store and API client

The importer calls the client of lib/arke_api_client.py, which is not part of
the sources here (only its callers are); its create_entity operation and the
store behaviour behind it are therefore modelled from the spec, section 4.2:
the store assigns the identifier, the new entity starts at version 1, and a
given parent id yields a bidirectional parent-child link within the same
creation; uploadContent is content-addressed (same bytes, same address). -/

/-- A store entity (the manifest state the claims need). -/
structure Entity where
  components : List (String × String)
  parent_pi : Option String
  children_pi : List String
  note : Option String
  ver : Nat
  deriving DecidableEq, Repr

/-- The remote entity store: a fresh-id counter and the entity table. -/
structure Store where
  counter : Nat
  entities : List (String × Entity)
  deriving DecidableEq, Repr

/-- Observable remote calls issued by the importer. -/
inductive ApiEvent where
  | uploadJson (payload : String)
  | createEntity (components : List (String × String)) (parent_pi : Option String)
      (note : String)
  | getArkeBlock
  | fetchUrl (url : String)
  deriving DecidableEq, Repr

namespace ArkeClient

/-- Modelled from the spec: the store's content addressing (section 4.2,
uploadContent) — deterministic in the payload bytes. -/
def content_address (payload : String) : String := "baf-" ++ payload

/-- upload_json: json.dumps(data, sort_keys=True), upload, return the address. -/
def upload_json (store : Store) (data : JValue) : String × Store × List ApiEvent :=
  let payload := JValue.dumps data
  (content_address payload, store, [.uploadJson payload])

/-- Modelled from the spec: create_entity of lib/arke_api_client.py
(section 4.2 createEntity) — the store assigns a fresh id, records the entity
at version 1 with the given parent, and appends the new id to the parent's
children within the same creation. -/
def create_entity (store : Store) (components : List (String × String))
    (parent_pi : Option String) (note : String) :
    (String × Nat) × Store × List ApiEvent :=
  let pi := "pi-" ++ toString store.counter
  let ent : Entity := ⟨components, parent_pi, [], some note, 1⟩
  let entities1 := (pi, ent) :: store.entities
  let entities2 :=
    match parent_pi with
    | none => entities1
    | some p => dictUpdate entities1 p (fun e => { e with children_pi := e.children_pi ++ [pi] })
  ((pi, 1), ⟨store.counter + 1, entities2⟩, [.createEntity components parent_pi note])

end ArkeClient

/-! ## lib/nara_importer.py: NARAImporter

The importer state and its five operations. External inputs are passed
explicitly: the entity store, the fetch oracle giving each URL's chunk stream
(None models a network failure, i.e. HashComputationError), the Arke genesis
block id (None models the failed lookup path) and the wall-clock string.
Each operation returns its result, the new importer, the new store and the
list of remote calls made. -/

/-- The stats dict of NARAImporter. -/
structure Stats where
  institutions_created : Nat
  collections_created : Nat
  series_created : Nat
  fileunits_created : Nat
  digitalobjects_created : Nat
  bytes_hashed : Nat
  errors : Nat
  deriving DecidableEq, Repr

/-- The all-zero stats dict built by the constructor. -/
def Stats.init : Stats := ⟨0, 0, 0, 0, 0, 0, 0⟩

structure NARAImporter where
  collection_id : String
  dry_run : Bool
  nara_to_pi : List (String × String)
  institution_pi : Option String
  stats : Stats
  deriving DecidableEq, Repr

/-- One digital-object descriptor from a NARA record (the obj dict fields the
importer reads). -/
structure DigitalObjectDesc where
  objectId : String
  objectFilename : String
  objectType : String
  objectUrl : String
  objectFileSize : Option Nat
  extractedText : Option String
  deriving DecidableEq, Repr

/-- The obj dict itself, as passed through full_metadata=obj. -/
def DigitalObjectDesc.toJson (d : DigitalObjectDesc) : JValue :=
  .jobj ([("objectId", .jstr d.objectId),
          ("objectFilename", .jstr d.objectFilename),
          ("objectType", .jstr d.objectType),
          ("objectUrl", .jstr d.objectUrl)]
    ++ (match d.objectFileSize with
        | some n => [("objectFileSize", JValue.jnum n)]
        | none => [])
    ++ (match d.extractedText with
        | some t => [("extractedText", JValue.jstr t)]
        | none => []))

namespace NARAImporter

/-- NARAImporter.__init__: initial_mappings or \x7b\x7d, fresh stats. -/
def init (collection_id : String) (dry_run : Bool)
    (initial_mappings : Option (List (String × String)))
    (institution_pi : Option String) : NARAImporter :=
  ⟨collection_id, dry_run, initial_mappings.getD [], institution_pi, Stats.init⟩

/-- python f-string rendering of an Optional[int]. -/
def pyShowOptNat : Option Nat → String
  | some n => toString n
  | none => "None"

/-- python "file_size or actual_size" (0 and None are falsy). -/
def pyOrNat (a : Option Nat) (b : Nat) : Nat :=
  match a with
  | some n => if n = 0 then b else n
  | none => b

def import_institution (imp : NARAImporter) (store : Store) (arke_block : Option String)
    (now : String) (name : String) (description url location : Option String) :
    String × NARAImporter × Store × List ApiEvent :=
  match imp.institution_pi with
  | some pi => (pi, imp, store, [])
  | none =>
    let catalog_record := NaraSchema.create_institution_catalog_record name description url
      location now
    if imp.dry_run then
      ("dry-run-pi", { imp with institution_pi := some "dry-run-pi" }, store, [])
    else
      let (catalog_cid, store1, ev1) := ArkeClient.upload_json store catalog_record
      let arke_pi := arke_block
      let ((pi, _ver), store2, ev2) := ArkeClient.create_entity store1
        [("catalog_record", catalog_cid)] arke_pi ("Institution: " ++ name)
      (pi,
       { imp with institution_pi := some pi,
                  stats := { imp.stats with
                             institutions_created := imp.stats.institutions_created + 1 } },
       store2, ev1 ++ [.getArkeBlock] ++ ev2)

def import_collection (imp : NARAImporter) (store : Store) (now : String)
    (collection_naid : Nat) (title : String) (date_range : List (String × String))
    (full_metadata : Option JValue) :
    String × NARAImporter × Store × List ApiEvent :=
  let nara_id := toString collection_naid
  match dictGet imp.nara_to_pi nara_id with
  | some pi => (pi, imp, store, [])
  | none =>
    let catalog_record := NaraSchema.create_collection_catalog_record collection_naid
      imp.collection_id title date_range none full_metadata now
    if imp.dry_run then
      ("dry-run-pi",
       { imp with nara_to_pi := dictSet imp.nara_to_pi nara_id "dry-run-pi" }, store, [])
    else
      let (catalog_cid, store1, ev1) := ArkeClient.upload_json store catalog_record
      let ((pi, _ver), store2, ev2) := ArkeClient.create_entity store1
        [("catalog_record", catalog_cid)] imp.institution_pi
        ("Collection: " ++ title ++ " (naId:" ++ nara_id ++ ")")
      (pi,
       { imp with nara_to_pi := dictSet imp.nara_to_pi nara_id pi,
                  stats := { imp.stats with
                             collections_created := imp.stats.collections_created + 1 } },
       store2, ev1 ++ ev2)

def import_series (imp : NARAImporter) (store : Store) (now : String)
    (series_naid : Nat) (parent_naid : Nat) (title : String)
    (date_range : List (String × String)) (creators : Option (List JValue))
    (full_metadata : Option JValue) :
    String × NARAImporter × Store × List ApiEvent :=
  let nara_id := toString series_naid
  match dictGet imp.nara_to_pi nara_id with
  | some pi => (pi, imp, store, [])
  | none =>
    let catalog_record := NaraSchema.create_series_catalog_record series_naid parent_naid
      title date_range creators full_metadata now
    if imp.dry_run then
      ("dry-run-pi",
       { imp with nara_to_pi := dictSet imp.nara_to_pi nara_id "dry-run-pi" }, store, [])
    else
      let (catalog_cid, store1, ev1) := ArkeClient.upload_json store catalog_record
      let parent_pi := dictGet imp.nara_to_pi (toString parent_naid)
      let ((pi, _ver), store2, ev2) := ArkeClient.create_entity store1
        [("catalog_record", catalog_cid)] parent_pi
        ("Series: " ++ title ++ " (naId:" ++ nara_id ++ ")")
      (pi,
       { imp with nara_to_pi := dictSet imp.nara_to_pi nara_id pi,
                  stats := { imp.stats with
                             series_created := imp.stats.series_created + 1 } },
       store2, ev1 ++ ev2)

def import_digitalobject (imp : NARAImporter) (store : Store)
    (fetch : String → Option (List (List Nat))) (now : String)
    (object_id : String) (parent_naid : Nat) (filename object_type s3_url : String)
    (file_size : Option Nat) (page_number : Option Nat) (extracted_text : Option String)
    (full_metadata : Option JValue) :
    Except Unit String × NARAImporter × Store × List ApiEvent :=
  match dictGet imp.nara_to_pi object_id with
  | some pi => (.ok pi, imp, store, [])
  | none =>
    if imp.dry_run then
      (.ok "dry-run-pi",
       { imp with nara_to_pi := dictSet imp.nara_to_pi object_id "dry-run-pi" }, store, [])
    else
      match fetch s3_url with
      | none =>
        (.error (),
         { imp with stats := { imp.stats with errors := imp.stats.errors + 1 } },
         store, [.fetchUrl s3_url])
      | some chunks =>
        let (hash_hex, actual_size) := NaraHashUtils.download_and_hash_s3 chunks
        let content_hash := NaraHashUtils.create_content_hash_object hash_hex
        let imp1 :=
          { imp with stats := { imp.stats with
                                bytes_hashed := imp.stats.bytes_hashed + actual_size } }
        let catalog_record := NaraSchema.create_digitalobject_catalog_record object_id
          parent_naid filename object_type s3_url content_hash
          (pyOrNat file_size actual_size) page_number extracted_text full_metadata now
        let (catalog_cid, store1, ev1) := ArkeClient.upload_json store catalog_record
        let parent_pi := dictGet imp1.nara_to_pi (toString parent_naid)
        let ((pi, _ver), store2, ev2) := ArkeClient.create_entity store1
          [("digital_object_metadata", catalog_cid)] parent_pi
          ("Page " ++ pyShowOptNat page_number ++ ": " ++ filename ++
           " (objectId:" ++ object_id ++ ")")
        (.ok pi,
         { imp1 with nara_to_pi := dictSet imp1.nara_to_pi object_id pi,
                     stats := { imp1.stats with
                                digitalobjects_created :=
                                  imp1.stats.digitalobjects_created + 1 } },
         store2, [.fetchUrl s3_url] ++ ev1 ++ ev2)

/-- The per-asset loop of import_fileunit: page numbers are positional from 1,
any failure of import_digitalobject is caught, counted and skipped. -/
def import_objects_loop (imp : NARAImporter) (store : Store)
    (fetch : String → Option (List (List Nat))) (now : String)
    (fileunit_naid : Nat) (objs : List DigitalObjectDesc) (i : Nat) :
    NARAImporter × Store × List ApiEvent :=
  match objs with
  | [] => (imp, store, [])
  | obj :: rest =>
    let r := import_digitalobject imp store fetch now obj.objectId fileunit_naid
      obj.objectFilename obj.objectType obj.objectUrl obj.objectFileSize (some i)
      obj.extractedText (some obj.toJson)
    let imp2 :=
      match r.1 with
      | .ok _ => r.2.1
      | .error _ =>
        { r.2.1 with stats := { r.2.1.stats with errors := r.2.1.stats.errors + 1 } }
    let rest' := import_objects_loop imp2 r.2.2.1 fetch now fileunit_naid rest (i + 1)
    (rest'.1, rest'.2.1, r.2.2.2 ++ rest'.2.2)

def import_fileunit (imp : NARAImporter) (store : Store)
    (fetch : String → Option (List (List Nat))) (now : String)
    (fileunit_naid parent_series_naid collection_naid : Nat) (title : String)
    (record_types : List String) (digital_objects : List DigitalObjectDesc)
    (access_restriction : Option JValue) (foia_tracking : Option String)
    (physical_location : Option JValue) (other_titles : Option (List String))
    (full_metadata : Option JValue) :
    String × NARAImporter × Store × List ApiEvent :=
  let nara_id := toString fileunit_naid
  match dictGet imp.nara_to_pi nara_id with
  | some pi => (pi, imp, store, [])
  | none =>
    let catalog_record := NaraSchema.create_fileunit_catalog_record fileunit_naid
      parent_series_naid collection_naid title record_types digital_objects.length
      access_restriction foia_tracking physical_location other_titles full_metadata now
    if imp.dry_run then
      ("dry-run-pi",
       { imp with nara_to_pi := dictSet imp.nara_to_pi nara_id "dry-run-pi" }, store, [])
    else
      let (catalog_cid, store1, ev1) := ArkeClient.upload_json store catalog_record
      let parent_pi := dictGet imp.nara_to_pi (toString parent_series_naid)
      let ((pi, _ver), store2, ev2) := ArkeClient.create_entity store1
        [("catalog_record", catalog_cid)] parent_pi
        ("FileUnit: " ++ title ++ " (naId:" ++ nara_id ++ ", " ++
         toString digital_objects.length ++ " pages)")
      let imp1 :=
        { imp with nara_to_pi := dictSet imp.nara_to_pi nara_id pi,
                   stats := { imp.stats with
                              fileunits_created := imp.stats.fileunits_created + 1 } }
      let rest := import_objects_loop imp1 store2 fetch now fileunit_naid digital_objects 1
      (pi, rest.1, rest.2.1, ev1 ++ ev2 ++ rest.2.2)

end NARAImporter

/-! ## Checkpoint files

import_full_collection.py and import_limited.py each persist a checkpoint as a
single JSON object and read it back at startup. The file system is modelled as
Option JValue (None = no checkpoint file on disk). -/

namespace ImportFullCollection

/-- save_checkpoint of import_full_collection.py: position and timestamp only. -/
def save_checkpoint (file_number record_index : Nat) (now : String) : JValue :=
  .jobj [("file_number", .jnum file_number),
         ("record_index", .jnum record_index),
         ("timestamp", .jstr now)]

/-- load_checkpoint of import_full_collection.py. -/
def load_checkpoint (file : Option JValue) : JValue :=
  match file with
  | some checkpoint => checkpoint
  | none => .jobj [("file_number", .jnum 1), ("record_index", .jnum 0)]

end ImportFullCollection

namespace ImportLimited

/-- save_checkpoint of import_limited.py: position, timestamp, the full
nara_to_pi mapping table and the institution pi. -/
def save_checkpoint (file_number record_index : Nat) (now : String)
    (importer : NARAImporter) : JValue :=
  .jobj [("file_number", .jnum file_number),
         ("record_index", .jnum record_index),
         ("timestamp", .jstr now),
         ("nara_to_pi",
          .jobj (importer.nara_to_pi.map (fun p => (p.1, JValue.jstr p.2)))),
         ("institution_pi",
          match importer.institution_pi with
          | some s => .jstr s
          | none => .jnull)]

/-- Add a default for a key missing from an old checkpoint. -/
def withDefault (checkpoint : JValue) (key : String) (dflt : JValue) : JValue :=
  if checkpoint.hasKey key then checkpoint
  else match checkpoint with
       | .jobj fs => .jobj (fs ++ [(key, dflt)])
       | v => v

/-- load_checkpoint of import_limited.py, with backwards-compatibility defaults. -/
def load_checkpoint (file : Option JValue) : JValue :=
  match file with
  | some checkpoint =>
    withDefault (withDefault checkpoint "nara_to_pi" (.jobj [])) "institution_pi" .jnull
  | none =>
    .jobj [("file_number", .jnum 1), ("record_index", .jnum 0),
           ("nara_to_pi", .jobj []), ("institution_pi", .jnull)]

/-- The main() restore path: the mapping table read back from the checkpoint. -/
def decode_mappings (v : Option JValue) : List (String × String) :=
  match v with
  | some (.jobj fs) =>
    fs.map (fun p => (p.1, match p.2 with | .jstr s => s | _ => ""))
  | _ => []

/-- The main() restore path: the institution pi read back from the checkpoint. -/
def decode_institution (v : Option JValue) : Option String :=
  match v with
  | some (.jstr s) => some s
  | _ => none

end ImportLimited

/-- Is this event an entity creation? -/
def isCreateEntity : ApiEvent → Bool
  | .createEntity _ _ _ => true
  | _ => false

/-- Is this event a catalog upload? -/
def isUploadJson : ApiEvent → Bool
  | .uploadJson _ => true
  | _ => false

/-- The parent_pi arguments of the createEntity calls in a trace, in order. -/
def createParents (evs : List ApiEvent) : List (Option String) :=
  match evs with
  | [] => []
  | .createEntity _ p _ :: rest => p :: createParents rest
  | _ :: rest => createParents rest

/-- Strict key order: keys le and different (antisymmetric on nodup-key lists). -/
def JValue.keyLT (p q : String × JValue) : Prop :=
  JValue.keyLE p q ∧ p.1 ≠ q.1

/-! # Theorems -/

section HashTheorems

open NaraHash NaraHashUtils

theorem hashStep_foldl (chunks : List (List Nat)) (acc : List Nat) (n : Nat) :
    chunks.foldl hashStep (acc, n) = (acc ++ chunks.flatten, n + chunks.flatten.length) := by
  induction chunks generalizing acc n with
  | nil => simp
  | cons c cs ih =>
    by_cases hc : c.isEmpty
    · have : c = [] := List.isEmpty_iff.mp hc
      subst this
      simpa [hashStep] using ih acc n
    · simp only [List.foldl_cons, hashStep, hc, if_neg, Bool.false_eq_true, not_false_iff,
        ite_false, List.flatten_cons]
      rw [ih]
      simp [List.append_assoc]
      omega

theorem download_and_hash_s3_eq (chunks : List (List Nat)) :
    download_and_hash_s3 chunks = (sha256hex chunks.flatten, chunks.flatten.length) := by
  unfold download_and_hash_s3
  rw [hashStep_foldl]
  simp

theorem hexDigitChar_mem (n : Nat) (h : n < 16) : hexDigitChar n ∈ hexLowerChars := by
  interval_cases n <;> decide

theorem toHex8_subset (x : Nat) : ∀ c ∈ toHex8 x, c ∈ hexLowerChars := by
  intro c hc
  simp only [toHex8, List.mem_map] at hc
  obtain ⟨i, _, rfl⟩ := hc
  exact hexDigitChar_mem _ (Nat.lt_succ_of_le (Nat.and_le_right))

theorem sha256hex_lower (msg : List Nat) : ∀ c ∈ (sha256hex msg).data, c ∈ hexLowerChars := by
  intro c hc
  simp only [sha256hex, String.mk, List.mem_flatten, List.mem_map] at hc
  obtain ⟨l, ⟨x, _, rfl⟩, hcl⟩ := hc
  exact toHex8_subset x c hcl

end HashTheorems

section DictLemmas

theorem dictGet_dictSet {α : Type} (d : List (String × α)) (k k' : String) (v : α) :
    dictGet (dictSet d k v) k' = if k = k' then some v else dictGet d k' := by
  induction d with
  | nil => simp [dictGet, dictSet]
  | cons p rest ih =>
    obtain ⟨k0, v0⟩ := p
    by_cases h0 : k0 = k
    · subst h0
      by_cases h1 : k0 = k'
      · subst h1; simp [dictSet, dictGet]
      · simp [dictSet, dictGet, h1]
    · by_cases h1 : k0 = k'
      · subst h1
        have : ¬ k = k0 := fun he => h0 he.symm
        simp [dictSet, dictGet, h0, this]
      · simp [dictSet, dictGet, h0, h1, ih]

end DictLemmas

section DryRunTheorems

open NARAImporter

/-- C10: with dry_run=True every import operation touches neither the store nor
the network (empty call trace, store unchanged), returns the sentinel
"dry-run-pi", records the sentinel mapping for the given source id, and leaves
the stats dict (all creation counters and bytes_hashed) untouched. -/
theorem dry_run_frame (imp : NARAImporter) (hdry : imp.dry_run = true) :
    (∀ store arke now name d u l, imp.institution_pi = none →
      import_institution imp store arke now name d u l =
        ("dry-run-pi", { imp with institution_pi := some "dry-run-pi" }, store, [])) ∧
    (∀ store now cn ct cdr cfm, dictGet imp.nara_to_pi (toString cn) = none →
      import_collection imp store now cn ct cdr cfm =
        ("dry-run-pi",
         { imp with nara_to_pi := dictSet imp.nara_to_pi (toString cn) "dry-run-pi" },
         store, [])) ∧
    (∀ store now sn pn st sdr scr sfm, dictGet imp.nara_to_pi (toString sn) = none →
      import_series imp store now sn pn st sdr scr sfm =
        ("dry-run-pi",
         { imp with nara_to_pi := dictSet imp.nara_to_pi (toString sn) "dry-run-pi" },
         store, [])) ∧
    (∀ store fetch now fn pn cn ft rts objs ar ftk pl ot fm,
      dictGet imp.nara_to_pi (toString fn) = none →
      import_fileunit imp store fetch now fn pn cn ft rts objs ar ftk pl ot fm =
        ("dry-run-pi",
         { imp with nara_to_pi := dictSet imp.nara_to_pi (toString fn) "dry-run-pi" },
         store, [])) ∧
    (∀ store fetch now oid pn ofn oty ourl ofs opg oet ofm,
      dictGet imp.nara_to_pi oid = none →
      import_digitalobject imp store fetch now oid pn ofn oty ourl ofs opg oet ofm =
        (.ok "dry-run-pi",
         { imp with nara_to_pi := dictSet imp.nara_to_pi oid "dry-run-pi" },
         store, [])) ∧
    (∀ d k, dictGet (dictSet d k "dry-run-pi") k = some ("dry-run-pi" : String)) := by
  refine ⟨?_, ?_, ?_, ?_, ?_, ?_⟩
  · intro store arke now name d u l hinst
    simp [import_institution, hinst, hdry]
  · intro store now cn ct cdr cfm hc
    simp [import_collection, hc, hdry]
  · intro store now sn pn st sdr scr sfm hs
    simp [import_series, hs, hdry]
  · intro store fetch now fn pn cn ft rts objs ar ftk pl ot fm hf
    simp [import_fileunit, hf, hdry]
  · intro store fetch now oid pn ofn oty ourl ofs opg oet ofm ho
    simp [import_digitalobject, ho, hdry]
  · intro d k
    simp [dictGet_dictSet]

/-- Witness for dry_run_frame at a concrete dry-run importer. -/
theorem dry_run_frame_witness :
    (NARAImporter.import_institution (NARAImporter.init "WJC-NSCSW" true none none)
        ⟨0, []⟩ none "T" "National Archives" none none none =
      ("dry-run-pi",
       { NARAImporter.init "WJC-NSCSW" true none none with
           institution_pi := some "dry-run-pi" }, ⟨0, []⟩, [])) ∧
    (NARAImporter.import_collection (NARAImporter.init "WJC-NSCSW" true none none)
        ⟨0, []⟩ "T" 7388842 "t" [] none =
      ("dry-run-pi",
       { NARAImporter.init "WJC-NSCSW" true none none with
           nara_to_pi := dictSet [] "7388842" "dry-run-pi" }, ⟨0, []⟩, [])) ∧
    (NARAImporter.import_digitalobject (NARAImporter.init "WJC-NSCSW" true none none)
        ⟨0, []⟩ (fun _ => none) "T" "ob-1" 5 "f.jpg" "Image (JPG)" "u" none none none none =
      (.ok "dry-run-pi",
       { NARAImporter.init "WJC-NSCSW" true none none with
           nara_to_pi := dictSet [] "ob-1" "dry-run-pi" }, ⟨0, []⟩, [])) := by
  have h := dry_run_frame (NARAImporter.init "WJC-NSCSW" true none none) rfl
  exact ⟨h.1 ⟨0, []⟩ none "T" "National Archives" none none none rfl,
         h.2.1 ⟨0, []⟩ "T" 7388842 "t" [] none rfl,
         h.2.2.2.2.1 ⟨0, []⟩ (fun _ => none) "T" "ob-1" 5 "f.jpg" "Image (JPG)" "u"
           none none none none rfl⟩

end DryRunTheorems

section LedgerTheorems

open NARAImporter

theorem import_series_already (imp : NARAImporter) (store : Store) (now : String)
    (naid pn : Nat) (t : String) (dr : List (String × String))
    (cr : Option (List JValue)) (fm : Option JValue) (pi : String)
    (hm : dictGet imp.nara_to_pi (toString naid) = some pi) :
    import_series imp store now naid pn t dr cr fm = (pi, imp, store, []) := by
  simp [import_series, hm]

/-- C3: two records sharing a series ancestor issue exactly one series
creation: the first import_series call makes exactly one createEntity call and
records the mapping; the second call (any record data, same series naId)
returns the recorded store id with no remote calls at all and changes
nothing. -/
theorem series_dedup (imp : NARAImporter) (store : Store) (now1 now2 : String)
    (naid p1 p2 : Nat) (t1 t2 : String) (dr1 dr2 : List (String × String))
    (cr1 cr2 : Option (List JValue)) (fm1 fm2 : Option JValue)
    (hnone : dictGet imp.nara_to_pi (toString naid) = none)
    (hdry : imp.dry_run = false) :
    (import_series
        (import_series imp store now1 naid p1 t1 dr1 cr1 fm1).2.1
        (import_series imp store now1 naid p1 t1 dr1 cr1 fm1).2.2.1
        now2 naid p2 t2 dr2 cr2 fm2) =
      ((import_series imp store now1 naid p1 t1 dr1 cr1 fm1).1,
       (import_series imp store now1 naid p1 t1 dr1 cr1 fm1).2.1,
       (import_series imp store now1 naid p1 t1 dr1 cr1 fm1).2.2.1, []) ∧
    ((import_series imp store now1 naid p1 t1 dr1 cr1 fm1).2.2.2.countP isCreateEntity
      = 1) ∧
    dictGet (import_series imp store now1 naid p1 t1 dr1 cr1 fm1).2.1.nara_to_pi
        (toString naid) =
      some (import_series imp store now1 naid p1 t1 dr1 cr1 fm1).1 := by
  have hmap : dictGet
      (import_series imp store now1 naid p1 t1 dr1 cr1 fm1).2.1.nara_to_pi
      (toString naid) = some (import_series imp store now1 naid p1 t1 dr1 cr1 fm1).1 := by
    simp [import_series, hnone, hdry, ArkeClient.upload_json, ArkeClient.create_entity,
      dictGet_dictSet]
  refine ⟨?_, ?_, hmap⟩
  · exact import_series_already _ _ now2 naid p2 t2 dr2 cr2 fm2 _ hmap
  · simp [import_series, hnone, hdry, ArkeClient.upload_json, ArkeClient.create_entity,
      isCreateEntity]

/-- Witness for series_dedup on a fresh importer. -/
theorem series_dedup_witness :
    (NARAImporter.import_series
        (NARAImporter.import_series (NARAImporter.init "WJC-NSCSW" false none none)
          ⟨0, []⟩ "T1" 7585787 7388842 "t1" [] none none).2.1
        (NARAImporter.import_series (NARAImporter.init "WJC-NSCSW" false none none)
          ⟨0, []⟩ "T1" 7585787 7388842 "t1" [] none none).2.2.1
        "T2" 7585787 7388842 "t2" [] none none) =
      ((NARAImporter.import_series (NARAImporter.init "WJC-NSCSW" false none none)
          ⟨0, []⟩ "T1" 7585787 7388842 "t1" [] none none).1,
       (NARAImporter.import_series (NARAImporter.init "WJC-NSCSW" false none none)
          ⟨0, []⟩ "T1" 7585787 7388842 "t1" [] none none).2.1,
       (NARAImporter.import_series (NARAImporter.init "WJC-NSCSW" false none none)
          ⟨0, []⟩ "T1" 7585787 7388842 "t1" [] none none).2.2.1, []) ∧
    ((NARAImporter.import_series (NARAImporter.init "WJC-NSCSW" false none none)
        ⟨0, []⟩ "T1" 7585787 7388842 "t1" [] none none).2.2.2.countP isCreateEntity
      = 1) ∧
    dictGet (NARAImporter.import_series (NARAImporter.init "WJC-NSCSW" false none none)
        ⟨0, []⟩ "T1" 7585787 7388842 "t1" [] none none).2.1.nara_to_pi "7585787" =
      some (NARAImporter.import_series (NARAImporter.init "WJC-NSCSW" false none none)
        ⟨0, []⟩ "T1" 7585787 7388842 "t1" [] none none).1 :=
  series_dedup (NARAImporter.init "WJC-NSCSW" false none none) ⟨0, []⟩ "T1" "T2"
    7585787 7388842 7388842 "t1" "t2" [] [] none none none none rfl rfl

/-- C2 counterexample: the ledger's record operation is a plain dict
assignment; re-recording a different store id for an existing source id
silently overwrites the mapping and raises no assertion or error. -/
theorem record_overwrites_silently :
    dictSet [("12345", "store-A")] "12345" "store-B" = [("12345", "store-B")] ∧
    dictGet (dictSet [("12345", "store-A")] "12345" "store-B") "12345" =
      some "store-B" ∧
    ("store-B" : String) ≠ "store-A" := by
  refine ⟨by rfl, by rfl, by decide⟩

theorem import_collection_preserves (imp : NARAImporter) (store : Store) (now : String)
    (naid : Nat) (t : String) (dr : List (String × String)) (fm : Option JValue)
    (k v : String) (h : dictGet imp.nara_to_pi k = some v) :
    dictGet (NARAImporter.import_collection imp store now naid t dr fm).2.1.nara_to_pi k
      = some v := by
  cases hm : dictGet imp.nara_to_pi (toString naid) with
  | some pi => simp [NARAImporter.import_collection, hm, h]
  | none =>
    have hne : toString naid ≠ k := fun he => by simp [he, h] at hm
    by_cases hd : imp.dry_run <;>
      simp [NARAImporter.import_collection, hm, hd, dictGet_dictSet, hne, h]

theorem import_series_preserves (imp : NARAImporter) (store : Store) (now : String)
    (naid pn : Nat) (t : String) (dr : List (String × String))
    (cr : Option (List JValue)) (fm : Option JValue)
    (k v : String) (h : dictGet imp.nara_to_pi k = some v) :
    dictGet (NARAImporter.import_series imp store now naid pn t dr cr fm).2.1.nara_to_pi k
      = some v := by
  cases hm : dictGet imp.nara_to_pi (toString naid) with
  | some pi => simp [NARAImporter.import_series, hm, h]
  | none =>
    have hne : toString naid ≠ k := fun he => by simp [he, h] at hm
    by_cases hd : imp.dry_run <;>
      simp [NARAImporter.import_series, hm, hd, dictGet_dictSet, hne, h]

theorem import_digitalobject_preserves (imp : NARAImporter) (store : Store)
    (fetch : String → Option (List (List Nat))) (now : String)
    (oid : String) (pn : Nat) (ofn oty ourl : String) (ofs opg : Option Nat)
    (oet : Option String) (ofm : Option JValue)
    (k v : String) (h : dictGet imp.nara_to_pi k = some v) :
    dictGet (NARAImporter.import_digitalobject imp store fetch now oid pn ofn oty ourl
        ofs opg oet ofm).2.1.nara_to_pi k = some v := by
  cases hm : dictGet imp.nara_to_pi oid with
  | some pi => simp [NARAImporter.import_digitalobject, hm, h]
  | none =>
    have hne : oid ≠ k := fun he => by simp [he, h] at hm
    by_cases hd : imp.dry_run
    · simp [NARAImporter.import_digitalobject, hm, hd, dictGet_dictSet, hne, h]
    · cases hf : fetch ourl <;>
        simp [NARAImporter.import_digitalobject, hm, hd, hf, dictGet_dictSet, hne, h]

theorem import_objects_loop_preserves (objs : List DigitalObjectDesc)
    (imp : NARAImporter) (store : Store)
    (fetch : String → Option (List (List Nat))) (now : String) (fn : Nat) (i : Nat)
    (k v : String) (h : dictGet imp.nara_to_pi k = some v) :
    dictGet (NARAImporter.import_objects_loop imp store fetch now fn objs i).1.nara_to_pi k
      = some v := by
  induction objs generalizing imp store i with
  | nil => simpa [NARAImporter.import_objects_loop] using h
  | cons obj rest ih =>
    rw [NARAImporter.import_objects_loop]
    have hstep := import_digitalobject_preserves imp store fetch now obj.objectId fn
      obj.objectFilename obj.objectType obj.objectUrl obj.objectFileSize (some i)
      obj.extractedText (some obj.toJson) k v h
    cases hr : (NARAImporter.import_digitalobject imp store fetch now obj.objectId fn
        obj.objectFilename obj.objectType obj.objectUrl obj.objectFileSize (some i)
        obj.extractedText (some obj.toJson)).1 with
    | ok pi =>
      simp only [hr]
      exact ih _ _ _ hstep
    | error e =>
      simp only [hr]
      exact ih _ _ _ (by simpa using hstep)

theorem import_fileunit_preserves (imp : NARAImporter) (store : Store)
    (fetch : String → Option (List (List Nat))) (now : String)
    (fn pn cn : Nat) (t : String) (rts : List String) (objs : List DigitalObjectDesc)
    (ar : Option JValue) (ftk : Option String) (pl : Option JValue)
    (ot : Option (List String)) (fm : Option JValue)
    (k v : String) (h : dictGet imp.nara_to_pi k = some v) :
    dictGet (NARAImporter.import_fileunit imp store fetch now fn pn cn t rts objs
        ar ftk pl ot fm).2.1.nara_to_pi k = some v := by
  cases hm : dictGet imp.nara_to_pi (toString fn) with
  | some pi => simp [NARAImporter.import_fileunit, hm, h]
  | none =>
    have hne : toString fn ≠ k := fun he => by simp [he, h] at hm
    by_cases hd : imp.dry_run
    · simp [NARAImporter.import_fileunit, hm, hd, dictGet_dictSet, hne, h]
    · rw [NARAImporter.import_fileunit]
      simp only [hm, hd, if_false, Bool.false_eq_true]
      exact import_objects_loop_preserves _ _ _ _ _ _ _ _ _
        (by simp [dictGet_dictSet, hne, h])

/-- C2 (amended): an existing ledger mapping is never changed by any import
operation — each operation returns the already-recorded store id for an
already-mapped source id and only ever assigns ids that are not yet mapped, so
a source id keeps a single store id for the lifetime of a run; there is,
however, no fail-fast guard inside the record step itself. -/
theorem ledger_mappings_preserved (imp : NARAImporter) (k v : String)
    (h : dictGet imp.nara_to_pi k = some v) :
    (∀ store now naid t dr fm,
      dictGet (NARAImporter.import_collection imp store now naid t dr fm).2.1.nara_to_pi k
        = some v) ∧
    (∀ store now naid pn t dr cr fm,
      dictGet (NARAImporter.import_series imp store now naid pn t dr cr fm).2.1.nara_to_pi
        k = some v) ∧
    (∀ store fetch now fn pn cn t rts objs ar ftk pl ot fm,
      dictGet (NARAImporter.import_fileunit imp store fetch now fn pn cn t rts objs
        ar ftk pl ot fm).2.1.nara_to_pi k = some v) ∧
    (∀ store fetch now oid pn ofn oty ourl ofs opg oet ofm,
      dictGet (NARAImporter.import_digitalobject imp store fetch now oid pn ofn oty ourl
        ofs opg oet ofm).2.1.nara_to_pi k = some v) ∧
    (∀ store now naid pn t dr cr fm, dictGet imp.nara_to_pi (toString naid) = some v →
      (NARAImporter.import_series imp store now naid pn t dr cr fm).1 = v ∧
      (NARAImporter.import_series imp store now naid pn t dr cr fm).2.1 = imp) := by
  refine ⟨fun store now naid t dr fm =>
            import_collection_preserves imp store now naid t dr fm k v h,
          fun store now naid pn t dr cr fm =>
            import_series_preserves imp store now naid pn t dr cr fm k v h,
          fun store fetch now fn pn cn t rts objs ar ftk pl ot fm =>
            import_fileunit_preserves imp store fetch now fn pn cn t rts objs
              ar ftk pl ot fm k v h,
          fun store fetch now oid pn ofn oty ourl ofs opg oet ofm =>
            import_digitalobject_preserves imp store fetch now oid pn ofn oty ourl
              ofs opg oet ofm k v h,
          fun store now naid pn t dr cr fm hm => ?_⟩
  constructor <;> simp [NARAImporter.import_series, hm]

/-- Witness for ledger_mappings_preserved on a one-entry ledger. -/
theorem ledger_mappings_preserved_witness :
    dictGet (NARAImporter.import_series
        ⟨"WJC-NSCSW", false, [("7585787", "pi-3")], none, Stats.init⟩
        ⟨9, []⟩ "T" 7585787 7388842 "t" [] none none).2.1.nara_to_pi "7585787" =
      some "pi-3" :=
  (ledger_mappings_preserved
    ⟨"WJC-NSCSW", false, [("7585787", "pi-3")], none, Stats.init⟩
    "7585787" "pi-3" rfl).2.1 ⟨9, []⟩ "T" 7585787 7388842 "t" [] none none

end LedgerTheorems

section FileUnitTheorems

open NARAImporter

/-- C4 counterexample: a FileUnit with 5 assets whose third always fails
verification ends the import with the error counter at 2, not 1 — the failure
is counted once inside import_digitalobject and once more by import_fileunit's
per-asset handler. -/
theorem fileunit_error_counter_two :
    (import_fileunit (NARAImporter.init "WJC-NSCSW" false none none) ⟨0, []⟩
        (fun u => if u = "u3" then none else some [[104, 105]]) "T"
        23902919 7585787 7388842 "t" ["Textual Records"]
        [⟨"o1", "f1", "ty", "u1", none, none⟩,
         ⟨"o2", "f2", "ty", "u2", none, none⟩,
         ⟨"o3", "f3", "ty", "u3", none, none⟩,
         ⟨"o4", "f4", "ty", "u4", none, none⟩,
         ⟨"o5", "f5", "ty", "u5", none, none⟩]
        none none none none none).2.1.stats.errors = 2 ∧ (2 : Nat) ≠ 1 := by
  refine ⟨by rfl, by decide⟩

/-- C4 (amended): on a fresh run, a FileUnit with 5 child assets whose third
always fails verification still creates and records the FileUnit entity and
returns its store id; the 4 other DigitalObjects are created (the assets after
the failure included), the failed asset stays unrecorded, and the error
counter ends at exactly 2 (the verification failure is double-counted, once
inside import_digitalobject and once by import_fileunit's handler). -/
theorem fileunit_failure_isolation (cid : String) (store : Store)
    (fetch : String → Option (List (List Nat))) (now : String)
    (fn pn cn : Nat) (t : String) (rts : List String)
    (o1 o2 o3 o4 o5 : DigitalObjectDesc) (c1 c2 c4 c5 : List (List Nat))
    (hfn1 : toString fn ≠ o1.objectId) (hfn2 : toString fn ≠ o2.objectId)
    (hfn3 : toString fn ≠ o3.objectId) (hfn4 : toString fn ≠ o4.objectId)
    (hfn5 : toString fn ≠ o5.objectId)
    (h12 : o1.objectId ≠ o2.objectId) (h13 : o1.objectId ≠ o3.objectId)
    (h14 : o1.objectId ≠ o4.objectId) (h15 : o1.objectId ≠ o5.objectId)
    (h23 : o2.objectId ≠ o3.objectId) (h24 : o2.objectId ≠ o4.objectId)
    (h25 : o2.objectId ≠ o5.objectId) (h34 : o3.objectId ≠ o4.objectId)
    (h35 : o3.objectId ≠ o5.objectId) (h45 : o4.objectId ≠ o5.objectId)
    (hf1 : fetch o1.objectUrl = some c1) (hf2 : fetch o2.objectUrl = some c2)
    (hf3 : fetch o3.objectUrl = none) (hf4 : fetch o4.objectUrl = some c4)
    (hf5 : fetch o5.objectUrl = some c5) :
    let r := import_fileunit (NARAImporter.init cid false none none) store fetch now
      fn pn cn t rts [o1, o2, o3, o4, o5] none none none none none
    dictGet r.2.1.nara_to_pi (toString fn) = some r.1 ∧
    r.2.1.stats.fileunits_created = 1 ∧
    r.2.1.stats.digitalobjects_created = 4 ∧
    (dictGet r.2.1.nara_to_pi o1.objectId).isSome = true ∧
    (dictGet r.2.1.nara_to_pi o2.objectId).isSome = true ∧
    (dictGet r.2.1.nara_to_pi o4.objectId).isSome = true ∧
    (dictGet r.2.1.nara_to_pi o5.objectId).isSome = true ∧
    dictGet r.2.1.nara_to_pi o3.objectId = none ∧
    r.2.1.stats.errors = 2 := by
  simp [import_fileunit, import_objects_loop, import_digitalobject,
    NARAImporter.init, Stats.init, ArkeClient.upload_json, ArkeClient.create_entity,
    NaraHashUtils.download_and_hash_s3, dictGet_dictSet, dictGet,
    hfn1, hfn2, hfn3, hfn4, hfn5, h12, h13, h14, h15, h23, h24, h25, h34, h35, h45,
    Ne.symm hfn1, Ne.symm hfn2, Ne.symm hfn3, Ne.symm hfn4, Ne.symm hfn5,
    Ne.symm h12, Ne.symm h13, Ne.symm h14, Ne.symm h15, Ne.symm h23, Ne.symm h24,
    Ne.symm h25, Ne.symm h34, Ne.symm h35, Ne.symm h45, hf1, hf2, hf3, hf4, hf5]

/-- Witness for fileunit_failure_isolation at concrete assets. -/
theorem fileunit_failure_isolation_witness :
    let r := NARAImporter.import_fileunit (NARAImporter.init "WJC-NSCSW" false none none)
      ⟨0, []⟩ (fun u => if u = "u3" then none else some [[104, 105]]) "T"
      23902919 7585787 7388842 "t" ["Textual Records"]
      [⟨"o1", "f1", "ty", "u1", none, none⟩,
       ⟨"o2", "f2", "ty", "u2", none, none⟩,
       ⟨"o3", "f3", "ty", "u3", none, none⟩,
       ⟨"o4", "f4", "ty", "u4", none, none⟩,
       ⟨"o5", "f5", "ty", "u5", none, none⟩]
      none none none none none
    dictGet r.2.1.nara_to_pi "23902919" = some r.1 ∧
    r.2.1.stats.fileunits_created = 1 ∧
    r.2.1.stats.digitalobjects_created = 4 ∧
    (dictGet r.2.1.nara_to_pi "o1").isSome = true ∧
    (dictGet r.2.1.nara_to_pi "o2").isSome = true ∧
    (dictGet r.2.1.nara_to_pi "o4").isSome = true ∧
    (dictGet r.2.1.nara_to_pi "o5").isSome = true ∧
    dictGet r.2.1.nara_to_pi "o3" = none ∧
    r.2.1.stats.errors = 2 :=
  fileunit_failure_isolation "WJC-NSCSW" ⟨0, []⟩
    (fun u => if u = "u3" then none else some [[104, 105]]) "T"
    23902919 7585787 7388842 "t" ["Textual Records"]
    ⟨"o1", "f1", "ty", "u1", none, none⟩
    ⟨"o2", "f2", "ty", "u2", none, none⟩
    ⟨"o3", "f3", "ty", "u3", none, none⟩
    ⟨"o4", "f4", "ty", "u4", none, none⟩
    ⟨"o5", "f5", "ty", "u5", none, none⟩
    [[104, 105]] [[104, 105]] [[104, 105]] [[104, 105]]
    (by decide) (by decide) (by decide) (by decide) (by decide)
    (by decide) (by decide) (by decide) (by decide) (by decide)
    (by decide) (by decide) (by decide) (by decide) (by decide)
    rfl rfl rfl rfl rfl

end FileUnitTheorems

section ClientTheorems

open NARAImporter

theorem dictGet_dictUpdate {α : Type} (d : List (String × α)) (k k' : String) (f : α → α) :
    dictGet (dictUpdate d k f) k' =
      if k = k' then Option.map f (dictGet d k') else dictGet d k' := by
  induction d with
  | nil => simp [dictGet, dictUpdate]
  | cons p rest ih =>
    obtain ⟨k0, v0⟩ := p
    by_cases h0 : k0 = k
    · subst h0
      by_cases h1 : k0 = k'
      · subst h1; simp [dictUpdate, dictGet]
      · simp [dictUpdate, dictGet, h1]
    · by_cases h1 : k0 = k'
      · subst h1
        have : ¬ k = k0 := fun he => h0 he.symm
        simp [dictUpdate, dictGet, h0, this]
      · simp [dictUpdate, dictGet, h0, h1, ih]

/-- C5: the modelled create_entity accepts the component map, an optional
parent store id and a note, returns the store-assigned id at version 1, and —
in the same creation — links child to parent and parent to child; and every
per-level creation issued by the import engine passes as parent exactly the
store id resolved from the ledger (the institution slot for a collection, the
parent naId's mapping for series, fileunits and digital objects). -/
theorem create_entity_parent_link
    (store : Store) (comps : List (String × String)) (p : String) (pe : Entity)
    (note : String) (imp : NARAImporter)
    (hdry : imp.dry_run = false)
    (hp : dictGet store.entities p = some pe)
    (hfresh : p ≠ "pi-" ++ toString store.counter) :
    ((ArkeClient.create_entity store comps (some p) note).1.1 =
        "pi-" ++ toString store.counter) ∧
    ((ArkeClient.create_entity store comps (some p) note).1.2 = 1) ∧
    (dictGet (ArkeClient.create_entity store comps (some p) note).2.1.entities
        ("pi-" ++ toString store.counter) = some ⟨comps, some p, [], some note, 1⟩) ∧
    (dictGet (ArkeClient.create_entity store comps (some p) note).2.1.entities p =
      some { pe with
               children_pi := pe.children_pi ++ ["pi-" ++ toString store.counter] }) ∧
    (∀ st2 now cn ct cdr cfm, dictGet imp.nara_to_pi (toString cn) = none →
      createParents (import_collection imp st2 now cn ct cdr cfm).2.2.2 =
        [imp.institution_pi]) ∧
    (∀ st2 now sn spn st sdr scr sfm, dictGet imp.nara_to_pi (toString sn) = none →
      createParents (import_series imp st2 now sn spn st sdr scr sfm).2.2.2 =
        [dictGet imp.nara_to_pi (toString spn)]) ∧
    (∀ st2 fetch now fn fpn fcn ft frt far fft fpl fot ffm,
      dictGet imp.nara_to_pi (toString fn) = none →
      createParents (import_fileunit imp st2 fetch now fn fpn fcn ft frt []
          far fft fpl fot ffm).2.2.2 =
        [dictGet imp.nara_to_pi (toString fpn)]) ∧
    (∀ st2 fetch now oid opn ofn oty ourl ofs opg oet ofm chunks,
      dictGet imp.nara_to_pi oid = none → fetch ourl = some chunks →
      createParents (import_digitalobject imp st2 fetch now oid opn ofn oty ourl
          ofs opg oet ofm).2.2.2 =
        [dictGet imp.nara_to_pi (toString opn)]) := by
  refine ⟨by simp [ArkeClient.create_entity],
          by simp [ArkeClient.create_entity],
          ?_, ?_, ?_, ?_, ?_, ?_⟩
  · simp [ArkeClient.create_entity, dictGet_dictUpdate, dictGet, hfresh]
  · simp [ArkeClient.create_entity, dictGet_dictUpdate, dictGet, Ne.symm hfresh, hp]
  · intro st2 now cn ct cdr cfm hc
    simp [import_collection, hc, hdry, ArkeClient.upload_json, ArkeClient.create_entity,
      createParents]
  · intro st2 now sn spn st sdr scr sfm hs
    simp [import_series, hs, hdry, ArkeClient.upload_json, ArkeClient.create_entity,
      createParents]
  · intro st2 fetch now fn fpn fcn ft frt far fft fpl fot ffm hf
    simp [import_fileunit, import_objects_loop, hf, hdry, ArkeClient.upload_json,
      ArkeClient.create_entity, createParents]
  · intro st2 fetch now oid opn ofn oty ourl ofs opg oet ofm chunks ho hfe
    simp [import_digitalobject, ho, hdry, hfe, ArkeClient.upload_json,
      ArkeClient.create_entity, NaraHashUtils.download_and_hash_s3, createParents]

/-- Witness for create_entity_parent_link at a concrete store and importer. -/
theorem create_entity_parent_link_witness :
    ((ArkeClient.create_entity ⟨1, [("pi-0", ⟨[], none, [], none, 1⟩)]⟩
        [("catalog_record", "baf-x")] (some "pi-0") "n").1.1 = "pi-1") ∧
    ((ArkeClient.create_entity ⟨1, [("pi-0", ⟨[], none, [], none, 1⟩)]⟩
        [("catalog_record", "baf-x")] (some "pi-0") "n").1.2 = 1) ∧
    (dictGet (ArkeClient.create_entity ⟨1, [("pi-0", ⟨[], none, [], none, 1⟩)]⟩
        [("catalog_record", "baf-x")] (some "pi-0") "n").2.1.entities "pi-1" =
      some ⟨[("catalog_record", "baf-x")], some "pi-0", [], some "n", 1⟩) ∧
    (dictGet (ArkeClient.create_entity ⟨1, [("pi-0", ⟨[], none, [], none, 1⟩)]⟩
        [("catalog_record", "baf-x")] (some "pi-0") "n").2.1.entities "pi-0" =
      some ⟨[], none, ["pi-1"], none, 1⟩) ∧
    createParents (NARAImporter.import_collection
        ⟨"WJC-NSCSW", false, [], some "pi-7", Stats.init⟩ ⟨1, []⟩ "T" 7388842 "t" []
        none).2.2.2 = [some "pi-7"] := by
  have h := create_entity_parent_link ⟨1, [("pi-0", ⟨[], none, [], none, 1⟩)]⟩
    [("catalog_record", "baf-x")] "pi-0" ⟨[], none, [], none, 1⟩ "n"
    ⟨"WJC-NSCSW", false, [], some "pi-7", Stats.init⟩ rfl rfl (by decide)
  exact ⟨h.1, h.2.1, h.2.2.1, h.2.2.2.1,
         h.2.2.2.2.1 ⟨1, []⟩ "T" 7388842 "t" [] none rfl⟩

end ClientTheorems

section DigitalObjectTheorems

open NARAImporter

/-- C7 counterexample: when the NARA metadata carries a (nonzero) file size,
the uploaded DigitalObject catalog record embeds that metadata size, not the
verified byte count: here the stream is 12 bytes but the record says 999. -/
theorem digitalobject_file_size_metadata :
    (NARAImporter.import_digitalobject (NARAImporter.init "WJC-NSCSW" false none none)
        ⟨0, []⟩ (fun _ => some [NaraHash.strBytes "hello world!"]) "T"
        "ob9" 5 "f.jpg" "Image (JPG)" "u9" (some 999) (some 1) none none).2.2.2.filter
        isUploadJson =
      [.uploadJson (JValue.dumps (NaraSchema.create_digitalobject_catalog_record
        "ob9" 5 "f.jpg" "Image (JPG)" "u9"
        (NaraHashUtils.create_content_hash_object
          (NaraHashUtils.download_and_hash_s3 [NaraHash.strBytes "hello world!"]).1)
        999 (some 1) none none "T"))] ∧
    JValue.jGet (NaraSchema.create_digitalobject_catalog_record
        "ob9" 5 "f.jpg" "Image (JPG)" "u9"
        (NaraHashUtils.create_content_hash_object
          (NaraHashUtils.download_and_hash_s3 [NaraHash.strBytes "hello world!"]).1)
        999 (some 1) none none "T") "file_size" = some (.jnum 999) ∧
    (NaraHashUtils.download_and_hash_s3 [NaraHash.strBytes "hello world!"]).2 = 12 ∧
    (999 : Int) ≠ 12 := by
  refine ⟨by rfl, by rfl, by rfl, by decide⟩

/-- C7 (amended): for a child asset whose verification succeeds, the uploaded
catalog record — attached as the digital_object_metadata component of the
created entity — embeds the verified digest in content_hash; its file_size is
the source metadata size when that is present and nonzero and otherwise the
verified byte count; and the OCR text is embedded when present and nonempty. -/
theorem digitalobject_record_contents (imp : NARAImporter) (store : Store)
    (fetch : String → Option (List (List Nat))) (now : String)
    (oid : String) (opn : Nat) (ofn oty ourl : String) (ofs opg : Option Nat)
    (oet : Option String) (ofm : Option JValue) (chunks : List (List Nat))
    (ho : dictGet imp.nara_to_pi oid = none)
    (hdry : imp.dry_run = false)
    (hfe : fetch ourl = some chunks) :
    let digest := (NaraHashUtils.download_and_hash_s3 chunks).1
    let size := (NaraHashUtils.download_and_hash_s3 chunks).2
    let record := NaraSchema.create_digitalobject_catalog_record oid opn ofn oty ourl
      (NaraHashUtils.create_content_hash_object digest) (pyOrNat ofs size) opg oet ofm now
    (import_digitalobject imp store fetch now oid opn ofn oty ourl ofs opg oet
        ofm).2.2.2 =
      [.fetchUrl ourl, .uploadJson (JValue.dumps record),
       .createEntity [("digital_object_metadata",
          ArkeClient.content_address (JValue.dumps record))]
        (dictGet imp.nara_to_pi (toString opn))
        ("Page " ++ pyShowOptNat opg ++ ": " ++ ofn ++ " (objectId:" ++ oid ++ ")")] ∧
    JValue.jGet record "content_hash" =
      some (NaraHashUtils.create_content_hash_object digest) ∧
    JValue.jGet record "file_size" = some (.jnum (pyOrNat ofs size)) ∧
    (ofs = none → JValue.jGet record "file_size" = some (.jnum size)) ∧
    (∀ t, oet = some t → t ≠ "" →
      JValue.jGet record "extracted_text" = some (.jstr t)) := by
  refine ⟨?_, ?_, ?_, ?_, ?_⟩
  · simp [import_digitalobject, ho, hdry, hfe, ArkeClient.upload_json,
      ArkeClient.create_entity, NaraHashUtils.download_and_hash_s3]
  · simp [NaraSchema.create_digitalobject_catalog_record, JValue.jGet, JValue.jGetFields]
  · simp [NaraSchema.create_digitalobject_catalog_record, JValue.jGet, JValue.jGetFields]
  · intro hofs
    simp [NaraSchema.create_digitalobject_catalog_record, JValue.jGet, JValue.jGetFields, hofs, pyOrNat]
  · intro t het hne
    cases opg <;>
      simp [NaraSchema.create_digitalobject_catalog_record, JValue.jGet, JValue.jGetFields,
        NaraSchema.optStrField, NaraSchema.optJField, het, hne]

/-- Witness for digitalobject_record_contents with OCR text and no metadata size. -/
theorem digitalobject_record_contents_witness :
    let digest := (NaraHashUtils.download_and_hash_s3 [NaraHash.strBytes "hi"]).1
    let size := (NaraHashUtils.download_and_hash_s3 [NaraHash.strBytes "hi"]).2
    let record := NaraSchema.create_digitalobject_catalog_record "ob1" 5 "f.jpg"
      "Image (JPG)" "u1" (NaraHashUtils.create_content_hash_object digest)
      (NARAImporter.pyOrNat none size) (some 1) (some "ocr text") none "T"
    (NARAImporter.import_digitalobject (NARAImporter.init "WJC-NSCSW" false none none)
        ⟨0, []⟩ (fun _ => some [NaraHash.strBytes "hi"]) "T"
        "ob1" 5 "f.jpg" "Image (JPG)" "u1" none (some 1) (some "ocr text")
        none).2.2.2 =
      [.fetchUrl "u1", .uploadJson (JValue.dumps record),
       .createEntity [("digital_object_metadata",
          ArkeClient.content_address (JValue.dumps record))]
        (dictGet [] "5")
        ("Page " ++ NARAImporter.pyShowOptNat (some 1) ++ ": " ++ "f.jpg" ++
         " (objectId:" ++ "ob1" ++ ")")] ∧
    JValue.jGet record "content_hash" =
      some (NaraHashUtils.create_content_hash_object digest) ∧
    JValue.jGet record "file_size" = some (.jnum (NARAImporter.pyOrNat none size)) ∧
    (none = (none : Option Nat) → JValue.jGet record "file_size" = some (.jnum size)) ∧
    (∀ t, (some "ocr text" : Option String) = some t → t ≠ "" →
      JValue.jGet record "extracted_text" = some (.jstr t)) :=
  digitalobject_record_contents (NARAImporter.init "WJC-NSCSW" false none none)
    ⟨0, []⟩ (fun _ => some [NaraHash.strBytes "hi"]) "T" "ob1" 5 "f.jpg" "Image (JPG)"
    "u1" none (some 1) (some "ocr text") none [NaraHash.strBytes "hi"] rfl rfl rfl

end DigitalObjectTheorems

section CheckpointTheorems

theorem decode_encode_mappings (m : List (String × String)) :
    ImportLimited.decode_mappings
        (some (.jobj (m.map (fun p => (p.1, JValue.jstr p.2))))) = m := by
  induction m with
  | nil => rfl
  | cons p rest ih =>
    simp only [ImportLimited.decode_mappings, List.map_cons] at ih ⊢
    simpa using ih

/-- C1 counterexample: the checkpoint file written by import_full_collection.py
carries neither the id-mapping table nor the institution id. -/
theorem checkpoint_full_lacks_ledger :
    (ImportFullCollection.save_checkpoint 3 7 "2025-01-01T00:00:00").hasKey
        "nara_to_pi" = false ∧
    (ImportFullCollection.save_checkpoint 3 7 "2025-01-01T00:00:00").hasKey
        "institution_pi" = false := by
  exact ⟨rfl, rfl⟩

/-- C1 (amended): checkpoints written by the limited import script contain the
shard (file) index, the record index, a timestamp, the full id-mapping table
and the institution id, and loading restores all of them; checkpoints written
by the full-collection script contain only the shard index, record index and
timestamp, and loading restores only that position. -/
theorem checkpoint_roundtrip (f r : Nat) (t : String) (imp : NARAImporter) :
    ((ImportLimited.save_checkpoint f r t imp).hasKey "file_number" = true) ∧
    ((ImportLimited.save_checkpoint f r t imp).hasKey "record_index" = true) ∧
    ((ImportLimited.save_checkpoint f r t imp).hasKey "timestamp" = true) ∧
    ((ImportLimited.save_checkpoint f r t imp).hasKey "nara_to_pi" = true) ∧
    ((ImportLimited.save_checkpoint f r t imp).hasKey "institution_pi" = true) ∧
    (JValue.jGet (ImportLimited.load_checkpoint
        (some (ImportLimited.save_checkpoint f r t imp))) "file_number" =
      some (.jnum f)) ∧
    (JValue.jGet (ImportLimited.load_checkpoint
        (some (ImportLimited.save_checkpoint f r t imp))) "record_index" =
      some (.jnum r)) ∧
    (ImportLimited.decode_mappings (JValue.jGet (ImportLimited.load_checkpoint
        (some (ImportLimited.save_checkpoint f r t imp))) "nara_to_pi") =
      imp.nara_to_pi) ∧
    (ImportLimited.decode_institution (JValue.jGet (ImportLimited.load_checkpoint
        (some (ImportLimited.save_checkpoint f r t imp))) "institution_pi") =
      imp.institution_pi) ∧
    (JValue.jGet (ImportFullCollection.save_checkpoint f r t) "file_number" =
      some (.jnum f)) ∧
    (JValue.jGet (ImportFullCollection.save_checkpoint f r t) "record_index" =
      some (.jnum r)) ∧
    ((ImportFullCollection.save_checkpoint f r t).hasKey "timestamp" = true) ∧
    ((ImportFullCollection.save_checkpoint f r t).hasKey "nara_to_pi" = false) ∧
    ((ImportFullCollection.save_checkpoint f r t).hasKey "institution_pi" = false) ∧
    (ImportFullCollection.load_checkpoint
        (some (ImportFullCollection.save_checkpoint f r t)) =
      ImportFullCollection.save_checkpoint f r t) := by
  refine ⟨rfl, rfl, rfl, rfl, ?_, rfl, rfl, ?_, ?_, rfl, rfl, rfl, rfl, rfl, rfl⟩
  · cases imp.institution_pi <;> rfl
  · have : JValue.jGet (ImportLimited.load_checkpoint
        (some (ImportLimited.save_checkpoint f r t imp))) "nara_to_pi" =
        some (.jobj (imp.nara_to_pi.map (fun p => (p.1, JValue.jstr p.2)))) := by
      simp only [ImportLimited.load_checkpoint, ImportLimited.save_checkpoint,
        ImportLimited.withDefault, JValue.hasKey, JValue.jGet, JValue.jGetFields]
      cases imp.institution_pi <;> rfl
    rw [this, decode_encode_mappings]
  · simp only [ImportLimited.load_checkpoint, ImportLimited.save_checkpoint,
      ImportLimited.withDefault, JValue.hasKey, JValue.jGet, JValue.jGetFields]
    cases imp.institution_pi <;> rfl

end CheckpointTheorems

section PiTheorems

open NaraPI

theorem splitOnChar_ne_nil (sep : Char) (a : List Char) : splitOnChar sep a ≠ [] := by
  cases a with
  | nil => simp [splitOnChar]
  | cons c cs =>
    rw [splitOnChar]
    by_cases hc : c = sep
    · simp [hc]
    · simp only [hc, if_false]
      cases splitOnChar sep cs <;> simp

theorem splitOnChar_no_sep (sep : Char) (a : List Char) (h : sep ∉ a) :
    splitOnChar sep a = [a] := by
  induction a with
  | nil => rfl
  | cons c cs ih =>
    have hc : ¬ c = sep := fun he => h (he ▸ List.mem_cons_self c cs)
    have hcs : sep ∉ cs := fun hm => h (List.mem_cons_of_mem _ hm)
    rw [splitOnChar, ih hcs]
    simp [hc]

theorem splitOnChar_append (sep : Char) (a b : List Char) :
    splitOnChar sep (a ++ sep :: b) = splitOnChar sep a ++ splitOnChar sep b := by
  induction a with
  | nil => simp [splitOnChar]
  | cons c cs ih =>
    rw [List.cons_append, splitOnChar, ih, splitOnChar]
    by_cases hc : c = sep
    · simp [hc]
    · simp only [hc, if_false]
      cases hsp : splitOnChar sep cs with
      | nil => exact absurd hsp (splitOnChar_ne_nil sep cs)
      | cons h t => simp

theorem two_le_splitOnChar_length (sep : Char) (a : List Char) (h : sep ∈ a) :
    2 ≤ (splitOnChar sep a).length := by
  induction a with
  | nil => cases h
  | cons c cs ih =>
    rw [splitOnChar]
    by_cases hc : c = sep
    · have := splitOnChar_ne_nil sep cs
      simp only [hc, if_true, List.length_cons]
      have : 1 ≤ (splitOnChar sep cs).length := by
        cases hsp : splitOnChar sep cs with
        | nil => exact absurd hsp (splitOnChar_ne_nil sep cs)
        | cons x y => simp
      omega
    · have hcs : sep ∈ cs := by
        rcases List.mem_cons.mp h with he | hm
        · exact absurd he.symm hc
        · exact hm
      simp only [hc, if_false]
      cases hsp : splitOnChar sep cs with
      | nil => exact absurd hsp (splitOnChar_ne_nil sep cs)
      | cons x y =>
        have := ih hcs
        rw [hsp] at this
        simpa using this

theorem intercalate_two (s : List Char) (x y : List Char) (l : List (List Char)) :
    List.intercalate s (x :: y :: l) = x ++ s ++ List.intercalate s (y :: l) := by
  simp [List.intercalate, List.intersperse_cons_cons, List.append_assoc]

theorem intercalate_splitOnChar (sep : Char) (a : List Char) :
    List.intercalate [sep] (splitOnChar sep a) = a := by
  induction a with
  | nil => simp [splitOnChar, List.intercalate]
  | cons c cs ih =>
    rw [splitOnChar]
    by_cases hc : c = sep
    · simp only [hc, if_true]
      cases hsp : splitOnChar sep cs with
      | nil => exact absurd hsp (splitOnChar_ne_nil sep cs)
      | cons h t =>
        rw [hsp] at ih
        rw [intercalate_two, ih]
        simp
    · simp only [hc, if_false]
      cases hsp : splitOnChar sep cs with
      | nil => exact absurd hsp (splitOnChar_ne_nil sep cs)
      | cons h t =>
        rw [hsp] at ih
        cases t with
        | nil =>
          simp only [List.intercalate, List.intersperse] at ih ⊢
          simpa using ih
        | cons t0 t1 =>
          rw [intercalate_two] at ih ⊢
          rw [List.cons_append, List.cons_append]
          rw [List.append_assoc] at ih ⊢
          exact congrArg (c :: ·) ih

/-- C8 counterexample: for a hyphen-free collection id the generated id splits
into only five parts, so parse_pi rejects it and is_valid_pi is false. -/
theorem parse_pi_hyphenless_collection :
    NaraPI.parse_pi (NaraPI.generate_semantic_id
        ['X'] ['F', 'I', 'L', 'E'] ['1'] ++ '-' :: ['U']) = none ∧
    NaraPI.is_valid_pi (NaraPI.generate_semantic_id
        ['X'] ['F', 'I', 'L', 'E'] ['1'] ++ '-' :: ['U']) = false := by
  exact ⟨rfl, rfl⟩

/-- C8 (amended): for every collection id containing at least one hyphen,
every entity type among COL/SER/FILE/OBJ and hyphen-free nara id and ulid,
parse_pi inverts generate_semantic_id ++ "-" ++ ulid into exactly the NARA
marker and the four components, and is_valid_pi accepts the string; a
hyphen-free collection id is instead rejected (fewer than six parts). -/
theorem parse_pi_roundtrip (collection et nid ulid : List Char)
    (hcol : '-' ∈ collection) (het : et ∈ NaraPI.VALID_TYPES)
    (hnid : '-' ∉ nid) (hulid : '-' ∉ ulid) :
    NaraPI.parse_pi (NaraPI.generate_semantic_id collection et nid ++ '-' :: ulid) =
      some ⟨NaraPI.NARA_STR, collection, et, nid, ulid⟩ ∧
    NaraPI.is_valid_pi (NaraPI.generate_semantic_id collection et nid ++ '-' :: ulid) =
      true := by
  have hetn : '-' ∉ et := by
    simp only [NaraPI.VALID_TYPES, List.mem_cons, List.not_mem_nil, or_false] at het
    rcases het with rfl | rfl | rfl | rfl <;> decide
  have hN : ('-' : Char) ∉ NaraPI.NARA_STR := by decide
  have hfull : NaraPI.generate_semantic_id collection et nid ++ '-' :: ulid =
      NaraPI.NARA_STR ++ '-' ::
        (collection ++ '-' :: (et ++ '-' :: (nid ++ '-' :: ulid))) := by
    simp [NaraPI.generate_semantic_id, List.append_assoc]
  have hsplit : splitOnChar '-'
      (NaraPI.generate_semantic_id collection et nid ++ '-' :: ulid) =
      NaraPI.NARA_STR :: (splitOnChar '-' collection ++ [et, nid, ulid]) := by
    rw [hfull, splitOnChar_append, splitOnChar_no_sep '-' _ hN, splitOnChar_append,
      splitOnChar_append, splitOnChar_no_sep '-' _ hetn, splitOnChar_append,
      splitOnChar_no_sep '-' _ hnid, splitOnChar_no_sep '-' _ hulid]
    simp
  have h2 : 2 ≤ (splitOnChar '-' collection).length :=
    two_le_splitOnChar_length '-' collection hcol
  have hparse : NaraPI.parse_pi
      (NaraPI.generate_semantic_id collection et nid ++ '-' :: ulid) =
      some ⟨NaraPI.NARA_STR, collection, et, nid, ulid⟩ := by
    rw [NaraPI.parse_pi, hsplit]
    have hlen : (NaraPI.NARA_STR :: (splitOnChar '-' collection ++ [et, nid, ulid])).length
        = (splitOnChar '-' collection).length + 4 := by simp
    rw [if_neg (by omega)]
    have hre : NaraPI.NARA_STR :: (splitOnChar '-' collection ++ [et, nid, ulid]) =
        (NaraPI.NARA_STR :: splitOnChar '-' collection) ++ [et, nid, ulid] := by simp
    have hlen1 : (NaraPI.NARA_STR :: splitOnChar '-' collection).length =
        (splitOnChar '-' collection).length + 1 := by simp
    have hget0 : (NaraPI.NARA_STR :: (splitOnChar '-' collection ++ [et, nid, ulid])).getD
        0 [] = NaraPI.NARA_STR := rfl
    rw [hget0, if_neg (by simp)]
    have hget3 : (NaraPI.NARA_STR :: (splitOnChar '-' collection ++ [et, nid, ulid])).getD
        ((NaraPI.NARA_STR :: (splitOnChar '-' collection ++ [et, nid, ulid])).length - 3)
        [] = et := by
      rw [hlen, hre, List.getD_append_right _ _ _ _ (by rw [hlen1]; omega)]
      rw [hlen1]
      have : (splitOnChar '-' collection).length + 4 - 3 -
          ((splitOnChar '-' collection).length + 1) = 0 := by omega
      rw [this]
      rfl
    have hget2 : (NaraPI.NARA_STR :: (splitOnChar '-' collection ++ [et, nid, ulid])).getD
        ((NaraPI.NARA_STR :: (splitOnChar '-' collection ++ [et, nid, ulid])).length - 2)
        [] = nid := by
      rw [hlen, hre, List.getD_append_right _ _ _ _ (by rw [hlen1]; omega)]
      rw [hlen1]
      have : (splitOnChar '-' collection).length + 4 - 2 -
          ((splitOnChar '-' collection).length + 1) = 1 := by omega
      rw [this]
      rfl
    have hget1 : (NaraPI.NARA_STR :: (splitOnChar '-' collection ++ [et, nid, ulid])).getD
        ((NaraPI.NARA_STR :: (splitOnChar '-' collection ++ [et, nid, ulid])).length - 1)
        [] = ulid := by
      rw [hlen, hre, List.getD_append_right _ _ _ _ (by rw [hlen1]; omega)]
      rw [hlen1]
      have : (splitOnChar '-' collection).length + 4 - 1 -
          ((splitOnChar '-' collection).length + 1) = 2 := by omega
      rw [this]
      rfl
    have hmid : List.intercalate ['-']
        (((NaraPI.NARA_STR :: (splitOnChar '-' collection ++ [et, nid, ulid])).drop 1).take
          ((NaraPI.NARA_STR :: (splitOnChar '-' collection ++ [et, nid, ulid])).length - 4))
        = collection := by
      rw [hlen]
      have hd : (NaraPI.NARA_STR :: (splitOnChar '-' collection ++ [et, nid, ulid])).drop 1
          = splitOnChar '-' collection ++ [et, nid, ulid] := rfl
      rw [hd]
      have : (splitOnChar '-' collection).length + 4 - 4 =
          (splitOnChar '-' collection).length := by omega
      rw [this, List.take_left, intercalate_splitOnChar]
    rw [hget3, hget2, hget1, hmid, if_pos het]
  exact ⟨hparse, by simp [NaraPI.is_valid_pi, hparse]⟩

/-- Witness for parse_pi_roundtrip at the WJC-NSCSW collection. -/
theorem parse_pi_roundtrip_witness :
    NaraPI.parse_pi (NaraPI.generate_semantic_id
        ("WJC-NSCSW".toList) ("FILE".toList) ("23902919".toList) ++
        '-' :: ("01JAB".toList)) =
      some ⟨NaraPI.NARA_STR, "WJC-NSCSW".toList, "FILE".toList, "23902919".toList,
            "01JAB".toList⟩ ∧
    NaraPI.is_valid_pi (NaraPI.generate_semantic_id
        ("WJC-NSCSW".toList) ("FILE".toList) ("23902919".toList) ++
        '-' :: ("01JAB".toList)) = true :=
  parse_pi_roundtrip ("WJC-NSCSW".toList) ("FILE".toList) ("23902919".toList)
    ("01JAB".toList) (by decide) (by decide) (by decide) (by decide)

end PiTheorems

section JsonSortTheorems

theorem char_toNat_inj (a b : Char) (h : a.toNat = b.toNat) : a = b :=
  Char.ext (UInt32.ext h)

theorem string_data_inj (s t : String) (h : s.data = t.data) : s = t := by
  cases s; cases t; exact congrArg String.mk h

theorem strLeB_total (a : List Char) : ∀ b, strLeB a b = true ∨ strLeB b a = true := by
  induction a with
  | nil => intro b; left; rfl
  | cons x xs ih =>
    intro b
    cases b with
    | nil => right; rfl
    | cons y ys =>
      rw [strLeB, strLeB]
      by_cases hxy : x.toNat < y.toNat
      · left; rw [if_pos hxy]
      · by_cases hyx : y.toNat < x.toNat
        · right; rw [if_pos hyx]
        · rcases ih ys with h | h
          · left; rw [if_neg hxy, if_neg hyx]; exact h
          · right; rw [if_neg hyx, if_neg hxy]; exact h

theorem strLeB_cases (x y : Char) (xs ys : List Char)
    (h : strLeB (x :: xs) (y :: ys) = true) :
    x.toNat < y.toNat ∨ (x.toNat = y.toNat ∧ strLeB xs ys = true) := by
  rw [strLeB] at h
  by_cases hxy : x.toNat < y.toNat
  · exact Or.inl hxy
  · by_cases hyx : y.toNat < x.toNat
    · rw [if_neg hxy, if_pos hyx] at h; cases h
    · exact Or.inr ⟨by omega, by rwa [if_neg hxy, if_neg hyx] at h⟩

theorem strLeB_trans (a : List Char) : ∀ b c, strLeB a b = true → strLeB b c = true →
    strLeB a c = true := by
  induction a with
  | nil => intro b c _ _; rfl
  | cons x xs ih =>
    intro b c h1 h2
    cases b with
    | nil => simp [strLeB] at h1
    | cons y ys =>
      cases c with
      | nil => simp [strLeB] at h2
      | cons z zs =>
        rw [strLeB]
        rcases strLeB_cases x y xs ys h1 with h | ⟨he1, hs1⟩ <;>
          rcases strLeB_cases y z ys zs h2 with h' | ⟨he2, hs2⟩
        · rw [if_pos (by omega)]
        · rw [if_pos (by omega)]
        · rw [if_pos (by omega)]
        · rw [if_neg (by omega), if_neg (by omega)]
          exact ih ys zs hs1 hs2

theorem strLeB_antisymm (a : List Char) : ∀ b, strLeB a b = true → strLeB b a = true →
    a = b := by
  induction a with
  | nil =>
    intro b _ h2
    cases b with
    | nil => rfl
    | cons y ys => simp [strLeB] at h2
  | cons x xs ih =>
    intro b h1 h2
    cases b with
    | nil => simp [strLeB] at h1
    | cons y ys =>
      rcases strLeB_cases x y xs ys h1 with h | ⟨he1, hs1⟩ <;>
        rcases strLeB_cases y x ys xs h2 with h' | ⟨he2, hs2⟩
      · omega
      · omega
      · omega
      · rw [char_toNat_inj x y he1, ih ys hs1 hs2]

theorem sortPairs_perm (l : List (String × JValue)) : (JValue.sortPairs l).Perm l :=
  List.perm_insertionSort _ l

theorem sortPairs_sorted (l : List (String × JValue)) :
    List.Sorted JValue.keyLE (JValue.sortPairs l) :=
  @List.sorted_insertionSort _ JValue.keyLE _
    ⟨fun p q => strLeB_total p.1.data q.1.data⟩
    ⟨fun p q r => strLeB_trans p.1.data q.1.data r.1.data⟩ l

theorem sorted_keyLT (l : List (String × JValue))
    (hs : List.Sorted JValue.keyLE l) (hnd : (l.map Prod.fst).Nodup) :
    List.Sorted JValue.keyLT l := by
  have hpw : l.Pairwise (fun a b => a.1 ≠ b.1) := by
    rw [List.Nodup, List.pairwise_map] at hnd
    exact hnd
  exact (List.Pairwise.and hs hpw : _)

theorem sortPairs_eq_of_perm (l1 l2 : List (String × JValue))
    (hp : l1.Perm l2) (hnd : (l1.map Prod.fst).Nodup) :
    JValue.sortPairs l1 = JValue.sortPairs l2 := by
  have hperm : (JValue.sortPairs l1).Perm (JValue.sortPairs l2) :=
    (sortPairs_perm l1).trans (hp.trans (sortPairs_perm l2).symm)
  have hnd1 : ((JValue.sortPairs l1).map Prod.fst).Nodup :=
    (((sortPairs_perm l1).map Prod.fst).nodup_iff).mpr hnd
  have hnd2' : (l2.map Prod.fst).Nodup := ((hp.map Prod.fst).nodup_iff).mp hnd
  have hnd2 : ((JValue.sortPairs l2).map Prod.fst).Nodup :=
    (((sortPairs_perm l2).map Prod.fst).nodup_iff).mpr hnd2'
  have hanti : IsAntisymm (String × JValue) JValue.keyLT := by
    constructor
    intro p q hpq hqp
    exact absurd (string_data_inj p.1 q.1
      (strLeB_antisymm p.1.data q.1.data hpq.1 hqp.1)) hpq.2
  exact @List.eq_of_perm_of_sorted _ JValue.keyLT hanti _ _ hperm
    (sorted_keyLT _ (sortPairs_sorted l1) hnd1)
    (sorted_keyLT _ (sortPairs_sorted l2) hnd2)

theorem sortJFields_eq_map (fs : List (String × JValue)) :
    JValue.sortJFields fs = fs.map (fun p => (p.1, JValue.sortJ p.2)) := by
  induction fs with
  | nil => rfl
  | cons p rest ih =>
    obtain ⟨k, v⟩ := p
    rw [JValue.sortJFields, ih, List.map_cons]

/-- C9: upload_json serializes with sorted keys, so two dictionaries equal as
maps (the same key-value bindings in any insertion order, keys unique) yield
byte-identical payloads and the same content address from the
content-addressed store. -/
theorem upload_json_sorted_keys (store1 store2 : Store)
    (fs1 fs2 : List (String × JValue))
    (hperm : fs1.Perm fs2) (hnodup : (fs1.map Prod.fst).Nodup) :
    JValue.dumps (.jobj fs1) = JValue.dumps (.jobj fs2) ∧
    (ArkeClient.upload_json store1 (.jobj fs1)).1 =
      (ArkeClient.upload_json store2 (.jobj fs2)).1 := by
  have hd : JValue.dumps (.jobj fs1) = JValue.dumps (.jobj fs2) := by
    show JValue.dumpJ (JValue.sortJ (.jobj fs1)) = JValue.dumpJ (JValue.sortJ (.jobj fs2))
    rw [JValue.sortJ, JValue.sortJ, sortJFields_eq_map, sortJFields_eq_map,
      sortPairs_eq_of_perm (fs1.map fun p => (p.1, JValue.sortJ p.2))
        (fs2.map fun p => (p.1, JValue.sortJ p.2)) (hperm.map _)
        (by simpa [List.map_map, Function.comp] using hnodup)]
  exact ⟨hd, by simp [ArkeClient.upload_json, hd]⟩

/-- Witness for upload_json_sorted_keys: the same two-entry dict in both
insertion orders uploads the same payload. -/
theorem upload_json_sorted_keys_witness :
    JValue.dumps (.jobj [("title", .jstr "x"), ("schema", .jnum 2)]) =
      JValue.dumps (.jobj [("schema", .jnum 2), ("title", .jstr "x")]) ∧
    (ArkeClient.upload_json ⟨0, []⟩
        (.jobj [("title", .jstr "x"), ("schema", .jnum 2)])).1 =
      (ArkeClient.upload_json ⟨5, []⟩
        (.jobj [("schema", .jnum 2), ("title", .jstr "x")])).1 :=
  upload_json_sorted_keys ⟨0, []⟩ ⟨5, []⟩
    [("title", .jstr "x"), ("schema", .jnum 2)]
    [("schema", .jnum 2), ("title", .jstr "x")]
    (List.Perm.swap _ _ _) (by decide)

end JsonSortTheorems

section HashClaimTheorems

open NaraHash NaraHashUtils

/-- C6: the content verifier returns the lower-case hex SHA-256 digest of the
streamed bytes with their exact total byte count; any two chunkings of the
same byte stream (verifying the same stream twice included) yield identical
results; and the 12-byte input b"hello world!" hashes to the well-known
value. -/
theorem download_and_hash_spec (chunks1 chunks2 : List (List Nat)) (bytes : List Nat)
    (h1 : chunks1.flatten = bytes) (h2 : chunks2.flatten = bytes) :
    download_and_hash_s3 chunks1 = download_and_hash_s3 chunks2 ∧
    download_and_hash_s3 chunks1 = (sha256hex bytes, bytes.length) ∧
    (∀ c ∈ (download_and_hash_s3 chunks1).1.data, c ∈ hexLowerChars) ∧
    download_and_hash_s3 [strBytes "hello world!"] =
      ("7509e5bda0c762d2bac7f90d758b5b2263fa01ccbc542ab5e3df163be08e6ca9", 12) := by
  have e1 := download_and_hash_s3_eq chunks1
  have e2 := download_and_hash_s3_eq chunks2
  rw [h1] at e1
  rw [h2] at e2
  refine ⟨e1.trans e2.symm, e1, ?_, by decide⟩
  rw [e1]
  exact sha256hex_lower bytes

/-- Witness for download_and_hash_spec: two different chunkings of the same
3-byte stream. -/
theorem download_and_hash_spec_witness :
    download_and_hash_s3 [[104], [105, 33]] = download_and_hash_s3 [[104, 105], [], [33]] ∧
    download_and_hash_s3 [[104], [105, 33]] =
      (sha256hex [104, 105, 33], [104, 105, 33].length) ∧
    (∀ c ∈ (download_and_hash_s3 [[104], [105, 33]]).1.data, c ∈ hexLowerChars) ∧
    download_and_hash_s3 [strBytes "hello world!"] =
      ("7509e5bda0c762d2bac7f90d758b5b2263fa01ccbc542ab5e3df163be08e6ca9", 12) :=
  download_and_hash_spec [[104], [105, 33]] [[104, 105], [], [33]] [104, 105, 33] rfl rfl

end HashClaimTheorems
